import Mathlib

/-!
Shallow embedding of the diet-app analytics core (src/core/metrics.py,
src/core/kpi_engine.py, src/core/forecast.py, src/core/red_flags.py).

Conventions of the embedding:
* Python floats are modelled as exact rationals (ℚ).  For the three rolling
  windows used by the code (7, 14, 30) the float expression
  `int(window * 0.7)` evaluates to 4, 9 and 21, the same values as the exact
  rational `⌊7 * w / 10⌋`, so `minPeriods` below uses natural division.
* Calendar dates are modelled as integers (day numbers); the record store
  guarantees at most one entry per date.
* `None` / NaN sources are modelled as `Option ℚ`.
* Operations that raise in Python (integer division by zero, `iloc` on an
  empty frame, `idxmax` on an empty column) are modelled in `Option` /
  `Except`; operations that merely produce NaN without raising keep total
  rational arithmetic, with junk values unreachable behind the source's
  guards.
* Quantities that the source obtains with `numpy.sqrt` (standard errors,
  standard deviations) are kept as their exact rational squares in the
  computable layer; real-valued bounds are expressed with `Real.sqrt` in
  theorem statements.
-/

set_option maxRecDepth 8000

namespace DietApp

/-- A raw daily record (schemas.DailyEntry) as seen by the metrics engine:
date, mandatory weight, optional body fat %, optional calories in,
optional sport calories out. -/
structure Entry where
  date : ℤ
  weight : ℚ
  bodyfat : Option ℚ
  calIn : Option ℚ
  calSport : Option ℚ
deriving DecidableEq, Repr

/-- Insert an entry into a date-ascending list (kernel of the date sort
performed by `get_metrics_dataframe` via `df.sort_values('date')`). -/
def insertByDate (e : Entry) : List Entry → List Entry
  | [] => [e]
  | x :: xs => if e.date ≤ x.date then e :: x :: xs else x :: insertByDate e xs

/-- Sort entries ascending by date (`df.sort_values('date')`). -/
def sortEntries (l : List Entry) : List Entry :=
  l.foldr insertByDate []

/-- Fat mass column: `weight * (bodyfat_pct / 100)`, null when body fat is
missing (`_compute_body_composition`). -/
def fatMass (e : Entry) : Option ℚ :=
  e.bodyfat.map (fun b => e.weight * (b / 100))

/-- Lean mass column: `weight - fat_mass`, null when body fat is missing. -/
def leanMass (e : Entry) : Option ℚ :=
  e.bodyfat.map (fun b => e.weight - e.weight * (b / 100))

/-- Net calorie column (`_compute_calorie_metrics`): missing sport calories
are treated as 0 (`fillna(0)`), and the result is forced to null whenever
`cal_in_kcal` is null. -/
def netCal (bmr : ℚ) (e : Entry) : Option ℚ :=
  e.calIn.map (fun ci => ci - bmr - e.calSport.getD 0)

/-- `min_periods = max(1, int(window * 0.7))` from
`_compute_rolling_averages`; for windows 7/14/30 the Python float
truncation gives 4/9/21, which equals `⌊7w/10⌋`. -/
def minPeriods (w : ℕ) : ℕ :=
  max 1 (7 * w / 10)

/-- One pandas `rolling(window=w, min_periods=minPeriods w).mean()` cell:
the trailing `w` positions of the column up to and including `i`, averaged
over the non-null values when there are at least `minPeriods w` of them. -/
def rollCell (w : ℕ) (vals : List (Option ℚ)) (i : ℕ) : Option ℚ :=
  let win := (vals.take (i + 1)).drop (i + 1 - w)
  let xs := win.filterMap id
  if minPeriods w ≤ xs.length then some (xs.sum / xs.length) else none

/-- Full rolling-average column at window `w`. -/
def rollingAvg (w : ℕ) (vals : List (Option ℚ)) : List (Option ℚ) :=
  (List.range vals.length).map (rollCell w vals)

/-- One row of the derived metrics table (the DataFrame produced by
`MetricsEngine.get_metrics_dataframe`). -/
structure Row where
  date : ℤ
  weight : ℚ
  bodyfat : Option ℚ
  calIn : Option ℚ
  calSport : Option ℚ
  fatMassKg : Option ℚ
  leanMassKg : Option ℚ
  calNet : Option ℚ
  w7avg : Option ℚ
  w14avg : Option ℚ
  w30avg : Option ℚ
  n7avg : Option ℚ
  n14avg : Option ℚ
  n30avg : Option ℚ
deriving DecidableEq, Repr

/-- The derived metrics table (`get_metrics_dataframe`): sort the fetched
entries by date, compute body composition, net calories, and the six
rolling-average columns. -/
def metricsTable (bmr : ℚ) (entries : List Entry) : List Row :=
  let s := sortEntries entries
  let wvals := s.map (fun e => (some e.weight : Option ℚ))
  let nvals := s.map (netCal bmr)
  let w7 := rollingAvg 7 wvals
  let w14 := rollingAvg 14 wvals
  let w30 := rollingAvg 30 wvals
  let n7 := rollingAvg 7 nvals
  let n14 := rollingAvg 14 nvals
  let n30 := rollingAvg 30 nvals
  s.enum.map (fun p =>
    { date := p.2.date
      weight := p.2.weight
      bodyfat := p.2.bodyfat
      calIn := p.2.calIn
      calSport := p.2.calSport
      fatMassKg := fatMass p.2
      leanMassKg := leanMass p.2
      calNet := netCal bmr p.2
      w7avg := w7.getD p.1 none
      w14avg := w14.getD p.1 none
      w30avg := w30.getD p.1 none
      n7avg := n7.getD p.1 none
      n14avg := n14.getD p.1 none
      n30avg := n30.getD p.1 none })

/-- Mean of a list of rationals (pandas `.mean()` over non-null values);
division by zero on the empty list yields the junk value 0, which is only
ever produced behind the source's non-emptiness guards. -/
def meanQ (l : List ℚ) : ℚ :=
  l.sum / l.length

/-- Sample variance (pandas `.std()` squared, `ddof=1`); junk 0 for lists of
fewer than two elements (pandas would give NaN there). -/
def varQ (l : List ℚ) : ℚ :=
  ((l.map (fun x => (x - meanQ l) ^ 2)).sum) / (l.length - 1 : ℚ)

/-- Flag severity levels. -/
inductive Sev where
  | low
  | medium
  | high
  | critical
deriving DecidableEq, Repr

/-- Flag categories. -/
inductive Cat where
  | dataQuality
  | health
  | consistency
  | progress
deriving DecidableEq, Repr

/-- A red flag (red_flags.RedFlag).  The human-readable `title`,
`description` and `recommendation` strings (float formatting of the same
numeric payload) are not modelled; `value`/`threshold` carry the numeric
content. -/
structure RedFlag where
  id : String
  severity : Sev
  category : Cat
  datesAffected : List ℤ
  value : Option ℚ := none
  threshold : Option ℚ := none
deriving DecidableEq, Repr

/-- Insert a derived row into a date-ascending list (kernel of the
defensive `df.sort_values('date')` calls inside the detectors). -/
def insertRowByDate (e : Row) : List Row → List Row
  | [] => [e]
  | x :: xs => if e.date ≤ x.date then e :: x :: xs else x :: insertRowByDate e xs

/-- Sort derived rows ascending by date. -/
def sortRows (l : List Row) : List Row :=
  l.foldr insertRowByDate []

/-- Keep the first pair attaining the larger date gap (the fold kernel of
the `max` / `idxmax` pair in `_detect_missing_data`). -/
def gapPick (acc : Option (Row × Row)) (p : Row × Row) : Option (Row × Row) :=
  match acc with
  | none => some p
  | some q => if q.2.date - q.1.date < p.2.date - p.1.date then some p else some q

/-- First pair of consecutive rows attaining the maximal date gap
(`df['gap'].idxmax()` keeps the first maximum). -/
def maxGapPair (pairs : List (Row × Row)) : Option (Row × Row) :=
  pairs.foldl gapPick none

/-- `_detect_missing_data`: coverage below 50%/70% and a gap of more than
7 days.  Raises (`none`) on `days = 0` (Python division by zero) and if the
gap maximum were taken over an empty column (unreachable). -/
def detectMissingData (days : ℕ) (df : List Row) : Option (List RedFlag) :=
  if days = 0 then none else
  let coverage : ℚ := (df.length : ℚ) / (days : ℚ) * 100
  let covFlags : List RedFlag :=
    if coverage < 50 then
      [{ id := "RF_MissingData_Low", severity := .high, category := .dataQuality,
         datesAffected := [], value := some coverage, threshold := some 50 }]
    else if coverage < 70 then
      [{ id := "RF_MissingData_Medium", severity := .medium, category := .dataQuality,
         datesAffected := [], value := some coverage, threshold := some 70 }]
    else []
  let ds := sortRows df
  if 1 < ds.length then
    match maxGapPair (ds.zip ds.tail) with
    | none => none
    | some p =>
      let mg : ℤ := p.2.date - p.1.date
      if 7 < mg then
        some (covFlags ++
          [{ id := "RF_LongGap", severity := .medium, category := .dataQuality,
             datesAffected := [p.2.date], value := some (mg : ℚ), threshold := some 7 }])
      else some covFlags
  else some covFlags

/-- `_detect_inconsistent_tracking`: body-fat coverage in (0,30)% and
calorie coverage in (0,50)%.  Raises (`none`) on an empty frame (division
by `len(df)`), which the dispatcher's emptiness check rules out. -/
def detectInconsistentTracking (df : List Row) : Option (List RedFlag) :=
  if df.length = 0 then none else
  let total : ℚ := df.length
  let bfCov := (df.countP (fun r => r.bodyfat.isSome) : ℚ) / total * 100
  let f1 : List RedFlag :=
    if 0 < bfCov ∧ bfCov < 30 then
      [{ id := "RF_InconsistentBF", severity := .low, category := .dataQuality,
         datesAffected := [], value := some bfCov, threshold := some 30 }]
    else []
  let calCov := (df.countP (fun r => r.calIn.isSome) : ℚ) / total * 100
  let f2 : List RedFlag :=
    if 0 < calCov ∧ calCov < 50 then
      [{ id := "RF_InconsistentCalories", severity := .medium, category := .dataQuality,
         datesAffected := [], value := some calCov, threshold := some 50 }]
    else []
  some (f1 ++ f2)

/-- Longest run of equal consecutive values, current run tracked against
the best so far (the explicit loop of `_detect_duplicate_patterns`). -/
def maxRunGo (prev : ℚ) (cur best : ℕ) : List ℚ → ℕ
  | [] => best
  | y :: ys =>
    if y = prev then maxRunGo y (cur + 1) (max best (cur + 1)) ys
    else maxRunGo y 1 best ys

/-- Longest run of equal consecutive values of a weight column. -/
def maxRun : List ℚ → ℕ
  | [] => 0
  | x :: xs => maxRunGo x 1 1 xs

/-- `_detect_duplicate_patterns`: at least 7 consecutive identical weight
values (checked only when the frame has 5 or more rows). -/
def detectDuplicatePatterns (df : List Row) : Option (List RedFlag) :=
  if 5 ≤ df.length then
    let ms := maxRun ((sortRows df).map Row.weight)
    if 7 ≤ ms then
      some [{ id := "RF_IdenticalWeights", severity := .low, category := .dataQuality,
              datesAffected := [], value := some (ms : ℚ), threshold := some 7 }]
    else some []
  else some []

/-- `_detect_extreme_weight_changes`: any single-day change of more than
2 kg in absolute value, one flag per offending day. -/
def detectExtremeWeightChanges (df : List Row) : Option (List RedFlag) :=
  let ds := sortRows df
  if ds.length < 2 then some [] else
  some (((ds.zip ds.tail).filter (fun p => 2 < |p.2.weight - p.1.weight|)).map (fun p =>
    { id := "RF_ExtremeWeightChange_" ++ toString p.2.date, severity := .high,
      category := .health, datesAffected := [p.2.date],
      value := some |p.2.weight - p.1.weight|, threshold := some 2 }))

/-- `_detect_extreme_calorie_deficit`: days below −1000 net kcal, and a
latest 7-day average below −800. -/
def detectExtremeCalorieDeficit (df : List Row) : Option (List RedFlag) :=
  let calData := df.filter (fun r => r.calNet.isSome)
  if calData.length = 0 then some [] else
  let extreme := calData.filter (fun r => r.calNet.getD 0 < -1000)
  let f1 : List RedFlag :=
    if 0 < extreme.length then
      [{ id := "RF_ExtremeDeficit", severity := .critical, category := .health,
         datesAffected := extreme.map Row.date,
         value := some (meanQ (extreme.filterMap Row.calNet)), threshold := some (-1000) }]
    else []
  let f2 : List RedFlag :=
    match (df.filterMap Row.n7avg).getLast? with
    | some la =>
      if la < -800 then
        [{ id := "RF_SustainedDeficit", severity := .high, category := .health,
           datesAffected := [], value := some la, threshold := some (-800) }]
      else []
    | none => []
  some (f1 ++ f2)

/-- `_detect_extreme_calorie_surplus`: more than 3 days above +500 net
kcal. -/
def detectExtremeCalorieSurplus (df : List Row) : Option (List RedFlag) :=
  let calData := df.filter (fun r => r.calNet.isSome)
  if calData.length = 0 then some [] else
  let large := calData.filter (fun r => 500 < r.calNet.getD 0)
  if 3 < large.length then
    some [{ id := "RF_FrequentSurplus", severity := .medium, category := .progress,
            datesAffected := large.map Row.date,
            value := some (meanQ (large.filterMap Row.calNet)), threshold := some 500 }]
  else some []

/-- `_detect_low_calorie_intake`: more than 5 days below 1200 kcal
intake. -/
def detectLowCalorieIntake (df : List Row) : Option (List RedFlag) :=
  let calData := df.filter (fun r => r.calIn.isSome)
  if calData.length = 0 then some [] else
  let low := calData.filter (fun r => r.calIn.getD 0 < 1200)
  if 5 < low.length then
    some [{ id := "RF_LowIntake", severity := .critical, category := .health,
            datesAffected := low.map Row.date,
            value := some (meanQ (low.filterMap Row.calIn)), threshold := some 1200 }]
  else some []

/-- `_detect_rapid_fat_loss`: fat mass dropping by more than 3 kg over the
last 14 recorded fat-mass values. -/
def detectRapidFatLoss (df : List Row) : Option (List RedFlag) :=
  let fmData := sortRows (df.filter (fun r => r.fatMassKg.isSome))
  if fmData.length < 14 then some [] else
  let recent := fmData.drop (fmData.length - 14)
  if 10 ≤ recent.length then
    match recent.head?, recent.getLast? with
    | some a, some b =>
      let ch := b.fatMassKg.getD 0 - a.fatMassKg.getD 0
      if ch < -3 then
        some [{ id := "RF_RapidFatLoss", severity := .high, category := .health,
                datesAffected := [], value := some ch, threshold := some (-3) }]
      else some []
    | _, _ => none
  else some []

/-- `_detect_weight_plateaus`: 14-day rolling-average weight moving by less
than 0.3 kg over the last 14 rows where that average exists.  Note: no
end-weight threshold appears in this rule. -/
def detectWeightPlateaus (df : List Row) : Option (List RedFlag) :=
  if df.length < 14 then some [] else
  let ds := sortRows df
  let withAvg := ds.filter (fun r => r.w14avg.isSome)
  let recent14 := withAvg.drop (withAvg.length - 14)
  if 10 ≤ recent14.length then
    match recent14.head?, recent14.getLast? with
    | some a, some b =>
      let ch := b.w14avg.getD 0 - a.w14avg.getD 0
      if |ch| < 3 / 10 then
        some [{ id := "RF_Plateau", severity := .low, category := .progress,
                datesAffected := [], value := some |ch|, threshold := some (3 / 10) }]
      else some []
    | _, _ => none
  else some []

/-- `_detect_yo_yo_pattern`: more than 4 sign changes of the day-over-day
7-day-average trend in a window of at least 30 rows. -/
def detectYoYoPattern (df : List Row) : Option (List RedFlag) :=
  if df.length < 30 then some [] else
  let ds := sortRows df
  let trends : List (Option ℚ) :=
    (ds.zip ds.tail).map (fun p =>
      match p.1.w7avg, p.2.w7avg with
      | some a, some b => some (b - a)
      | _, _ => none)
  let changes :=
    (trends.zip trends.tail).countP (fun q =>
      match q.1, q.2 with
      | some a, some b => decide (b * a < 0)
      | _, _ => false)
  if 4 < changes then
    some [{ id := "RF_YoYo", severity := .medium, category := .consistency,
            datesAffected := [], value := some (changes : ℚ), threshold := some 4 }]
  else some []

/-- `_detect_inconsistent_bodyfat`: any day-over-day body-fat jump above
2 percentage points among the recorded body-fat values. -/
def detectInconsistentBodyfat (df : List Row) : Option (List RedFlag) :=
  let bfData := sortRows (df.filter (fun r => r.bodyfat.isSome))
  if bfData.length < 5 then some [] else
  some (((bfData.zip bfData.tail).filter
      (fun p => 2 < |p.2.bodyfat.getD 0 - p.1.bodyfat.getD 0|)).map (fun p =>
    { id := "RF_InconsistentBF_" ++ toString p.2.date, severity := .low,
      category := .dataQuality, datesAffected := [p.2.date],
      value := some |p.2.bodyfat.getD 0 - p.1.bodyfat.getD 0|, threshold := some 2 }))

/-- `_detect_stalled_progress`: total weight change below 0.5 kg over at
least 21 rows, flagged only while the end-of-window weight is above the
literal 75. -/
def detectStalledProgress (df : List Row) : Option (List RedFlag) :=
  if df.length < 21 then some [] else
  let ds := sortRows df
  match ds.head?, ds.getLast? with
  | some a, some b =>
    let ch := b.weight - a.weight
    if |ch| < 1 / 2 then
      if 75 < b.weight then
        some [{ id := "RF_StalledProgress", severity := .medium, category := .progress,
                datesAffected := [], value := some |ch|, threshold := some (1 / 2) }]
      else some []
    else some []
  | _, _ => none

/-- `_detect_unexpected_weight_gain`: weight up by more than 0.5 kg while
the average net balance is a deficit below −200. -/
def detectUnexpectedWeightGain (df : List Row) : Option (List RedFlag) :=
  if df.length < 14 then some [] else
  let calData := df.filter (fun r => r.calNet.isSome)
  if 7 ≤ calData.length then
    let avg := meanQ (calData.filterMap Row.calNet)
    if avg < -200 then
      let ds := sortRows df
      match ds.head?, ds.getLast? with
      | some a, some b =>
        let ch := b.weight - a.weight
        if 1 / 2 < ch then
          some [{ id := "RF_UnexpectedGain", severity := .high, category := .progress,
                  datesAffected := [], value := some ch, threshold := some (1 / 2) }]
        else some []
      | _, _ => none
    else some []
  else some []

/-- `RedFlagsEngine.detect_all_flags`: build the derived table, return `[]`
on an empty table, otherwise run the thirteen detectors in source order and
concatenate their findings.  `none` models a Python exception escaping. -/
def detectAllFlags (bmr : ℚ) (days : ℕ) (entries : List Entry) : Option (List RedFlag) :=
  let df := metricsTable bmr entries
  if df.isEmpty then some [] else do
    let f1 ← detectMissingData days df
    let f2 ← detectInconsistentTracking df
    let f3 ← detectDuplicatePatterns df
    let f4 ← detectExtremeWeightChanges df
    let f5 ← detectExtremeCalorieDeficit df
    let f6 ← detectExtremeCalorieSurplus df
    let f7 ← detectLowCalorieIntake df
    let f8 ← detectRapidFatLoss df
    let f9 ← detectWeightPlateaus df
    let f10 ← detectYoYoPattern df
    let f11 ← detectInconsistentBodyfat df
    let f12 ← detectStalledProgress df
    let f13 ← detectUnexpectedWeightGain df
    pure (f1 ++ f2 ++ f3 ++ f4 ++ f5 ++ f6 ++ f7 ++ f8 ++ f9 ++ f10 ++ f11 ++ f12 ++ f13)

/-- Round-half-to-even to an integer, Python's `round` (banker's
rounding).  Polymorphic over ordered fields with a floor so it serves both
the exact rational layer and real-valued scores. -/
def rheF {α : Type} [LinearOrderedField α] [FloorRing α] (x : α) : ℤ :=
  if Int.fract x < 1 / 2 then ⌊x⌋
  else if 1 / 2 < Int.fract x then ⌊x⌋ + 1
  else if 2 ∣ ⌊x⌋ then ⌊x⌋ else ⌊x⌋ + 1

/-- Python `round(x, 0)` on an exact rational. -/
def rheQ0 (q : ℚ) : ℚ := (rheF q : ℚ)

/-- Python `round(x, 1)` on an exact rational. -/
def rheQ1 (q : ℚ) : ℚ := (rheF (q * 10) : ℚ) / 10

/-- Python `round(x, 2)` on an exact rational. -/
def rheQ2 (q : ℚ) : ℚ := (rheF (q * 100) : ℚ) / 100

/-- `x = np.arange(n)` as a rational list. -/
def idxList (n : ℕ) : List ℚ := (List.range n).map (fun i => (i : ℚ))

/-- Ordinary-least-squares slope of `ys` against `xs`
(`np.polyfit(x, y, 1)[0]` and the explicit slope formula in
`_forecast_linear` agree on this for non-degenerate data). -/
def olsSlope (xs ys : List ℚ) : ℚ :=
  let n : ℚ := xs.length
  let sx := xs.sum
  let sy := ys.sum
  let sxy := ((xs.zip ys).map (fun p => p.1 * p.2)).sum
  let sxx := (xs.map (fun x => x ^ 2)).sum
  (n * sxy - sx * sy) / (n * sxx - sx ^ 2)

/-- A KPI record (kpi_engine.KPI).  Display strings (`name`,
`explanation`, `formula`) are not modelled; `value` is real-valued because
two KPIs (volatility, adherence) carry square roots. -/
structure KPI where
  id : String
  value : Option ℝ
  unit : String
  windowDays : ℕ
  target : Option ℚ := none
  isGood : Option Bool := none

/-- `_kpi_weight_trend_7d`: OLS slope of the last 7 non-null 7-day
averages, scaled to a weekly rate. -/
def kpiWeightTrend7d (df : List Row) : Option KPI :=
  if df.length < 7 then none else
  let withAvg := df.filter (fun r => r.w7avg.isSome)
  if withAvg.length < 7 then none else
  let recent := withAvg.drop (withAvg.length - 7)
  let tpw := olsSlope (idxList recent.length) (recent.filterMap Row.w7avg) * 7
  some { id := "KPI_Weight_Trend_7d", value := some ((rheQ2 tpw : ℚ) : ℝ),
         unit := "kg/week", windowDays := 7, target := some (-1 / 2),
         isGood := some (decide (tpw < 0)) }

/-- `_kpi_weight_change_30d`: last-minus-first 7-day average when at least
two exist, falling back to the raw weight delta. -/
def kpiWeightChange30d (df : List Row) : Option KPI :=
  if df.length < 2 then none else
  let withAvg := df.filter (fun r => r.w7avg.isSome)
  let change :=
    if 2 ≤ withAvg.length then
      let vs := withAvg.filterMap Row.w7avg
      vs.getLast?.getD 0 - vs.head?.getD 0
    else
      (df.map Row.weight).getLast?.getD 0 - (df.map Row.weight).head?.getD 0
  some { id := "KPI_Weight_Change_30d", value := some ((rheQ2 change : ℚ) : ℝ),
         unit := "kg", windowDays := 30, target := some (-2),
         isGood := some (decide (change < 0)) }

/-- `_kpi_bf_change_30d`: last-minus-first recorded body-fat value. -/
def kpiBfChange30d (df : List Row) : Option KPI :=
  let vs := df.filterMap Row.bodyfat
  if vs.length < 2 then none else
  let change := vs.getLast?.getD 0 - vs.head?.getD 0
  some { id := "KPI_BF_Change_30d", value := some ((rheQ2 change : ℚ) : ℝ),
         unit := "pp", windowDays := 30, target := some (-1),
         isGood := some (decide (change < 0)) }

/-- `_kpi_fat_mass_change_30d`: last-minus-first recorded fat mass. -/
def kpiFatMassChange30d (df : List Row) : Option KPI :=
  let vs := df.filterMap Row.fatMassKg
  if vs.length < 2 then none else
  let change := vs.getLast?.getD 0 - vs.head?.getD 0
  some { id := "KPI_FatMass_Change_30d", value := some ((rheQ2 change : ℚ) : ℝ),
         unit := "kg", windowDays := 30, target := some (-3 / 2),
         isGood := some (decide (change < 0)) }

/-- `_kpi_net_calories_7d`: mean net balance over the last 7 rows that
carry a net value. -/
def kpiNetCalories7d (df : List Row) : Option KPI :=
  let calData := df.filter (fun r => r.calNet.isSome)
  if calData.length < 1 then none else
  let recent := calData.drop (calData.length - 7)
  let avg := meanQ (recent.filterMap Row.calNet)
  some { id := "KPI_NetCalories_7d", value := some ((rheQ0 avg : ℚ) : ℝ),
         unit := "kcal/day", windowDays := 7, target := some (-300),
         isGood := some (decide (avg < 0)) }

/-- `_kpi_intake_7d`: mean intake over the last 7 rows with intake. -/
def kpiIntake7d (df : List Row) : Option KPI :=
  let calData := df.filter (fun r => r.calIn.isSome)
  if calData.length < 1 then none else
  let recent := calData.drop (calData.length - 7)
  let avg := meanQ (recent.filterMap Row.calIn)
  some { id := "KPI_Intake_7d", value := some ((rheQ0 avg : ℚ) : ℝ),
         unit := "kcal/day", windowDays := 7, target := some 2000,
         isGood := none }

/-- `_kpi_sport_7d`: mean sport calories over the last 7 rows with a sport
value; good at or above 300. -/
def kpiSport7d (df : List Row) : Option KPI :=
  let calData := df.filter (fun r => r.calSport.isSome)
  if calData.length < 1 then none else
  let recent := calData.drop (calData.length - 7)
  let avg := meanQ (recent.filterMap Row.calSport)
  some { id := "KPI_Sport_7d", value := some ((rheQ0 avg : ℚ) : ℝ),
         unit := "kcal/day", windowDays := 7, target := some 400,
         isGood := some (decide (300 ≤ avg)) }

/-- `_kpi_consistency_coverage_30d`: share of the requested days carrying
both intake and sport calories (the Python version divides by `days` and
would raise on zero; the rational division is total here and the claims
never use `days = 0`). -/
def kpiConsistencyCoverage (days : ℕ) (df : List Row) : Option KPI :=
  let complete := df.filter (fun r => r.calIn.isSome && r.calSport.isSome)
  let coverage : ℚ := (complete.length : ℚ) / (days : ℚ) * 100
  some { id := "KPI_Consistency_Coverage_30d", value := some ((rheQ1 coverage : ℚ) : ℝ),
         unit := "%", windowDays := days, target := some 90,
         isGood := some (decide (80 ≤ coverage)) }

/-- `_kpi_volatility_weight_14d`: sample standard deviation of the raw
weight over the last 14 rows.  The judgment `std < 1.0` is evaluated as
`var < 1`, which is equivalent since both sides are non-negative. -/
noncomputable def kpiVolatilityWeight14d (df : List Row) : Option KPI :=
  if df.length < 14 then none else
  let v := varQ ((df.drop (df.length - 14)).map Row.weight)
  some { id := "KPI_Volatility_Weight_14d",
         value := some (((rheF (Real.sqrt (v : ℝ) * 100) : ℤ) : ℝ) / 100),
         unit := "kg (std)", windowDays := 14, target := some (1 / 2),
         isGood := some (decide (v < 1)) }

/-- Length of the streak of exactly-consecutive dates, scanning a
descending date list (the explicit loop of `_kpi_streak_days`). -/
def streakGo (prev : ℤ) : List ℤ → ℕ
  | [] => 1
  | d :: rest => if prev - d = 1 then 1 + streakGo d rest else 1

/-- Current streak over a descending date list. -/
def streakCount : List ℤ → ℕ
  | [] => 0
  | d :: rest => streakGo d rest

/-- `_kpi_streak_days`: consecutive days with data, counted backwards from
the most recent record. -/
def kpiStreakDays (df : List Row) : Option KPI :=
  if df.length < 1 then none else
  let streak := streakCount (((sortRows df).reverse).map Row.date)
  some { id := "KPI_Streak_Days", value := some ((streak : ℚ) : ℝ),
         unit := "days", windowDays := 365, target := some 30,
         isGood := some (decide (7 ≤ streak)) }

/-- `_kpi_goal_eta`: OLS slope over the last 14 raw weights; null and
not-good when the slope is non-negative, otherwise the rounded
days-to-target at the current rate. -/
def kpiGoalEta (targetW : ℚ) (df : List Row) : Option KPI :=
  if df.length < 14 then none else
  let withAvg := df.filterMap Row.w7avg
  let current :=
    match withAvg.getLast? with
    | some c => c
    | none => (df.map Row.weight).getLast?.getD 0
  let recent := df.drop (df.length - 14)
  let slope := olsSlope (idxList recent.length) (recent.map Row.weight)
  if 0 ≤ slope then
    some { id := "KPI_Goal_ETA", value := none, unit := "days",
           windowDays := 14, target := none, isGood := some false }
  else
    let eta := (current - targetW) / |slope|
    some { id := "KPI_Goal_ETA", value := some ((rheQ0 eta : ℚ) : ℝ),
           unit := "days", windowDays := 14, target := some 90,
           isGood := some (decide (eta ≤ 120)) }

/-- `_kpi_adherence_score`: 100 minus coverage, trend, streak and
volatility penalties, clamped to [0, 100].  The `std > 1.5` test is
evaluated as `var > 9/4` (equivalent, both sides non-negative). -/
noncomputable def kpiAdherenceScore (days : ℕ) (df : List Row) : Option KPI :=
  if df.length < 7 then none else
  let complete := df.filter (fun r => r.calIn.isSome && r.calSport.isSome)
  let coverage : ℚ := (complete.length : ℚ) / (days : ℚ) * 100
  let s1 : ℝ := if coverage < 90 then 100 - ((90 - coverage : ℚ) : ℝ) / 3 else 100
  let withAvg := df.filter (fun r => r.w7avg.isSome)
  let s2 : ℝ :=
    if 7 ≤ withAvg.length then
      let recent := withAvg.drop (withAvg.length - 7)
      let slopeW := olsSlope (idxList recent.length) (recent.filterMap Row.w7avg) * 7
      if 0 < slopeW then s1 - 30 else if -1 / 5 < slopeW then s1 - 15 else s1
    else s1
  let streak := streakCount (((sortRows df).reverse).map Row.date)
  let s3 : ℝ := if 1 ≤ df.length ∧ streak < 7 then s2 - ((7 - streak : ℕ) : ℝ) * 3 else s2
  let s4 : ℝ :=
    if 14 ≤ df.length then
      let v := varQ ((df.drop (df.length - 14)).map Row.weight)
      if 9 / 4 < v then s3 - min 20 ((Real.sqrt (v : ℝ) - 3 / 2) * 10) else s3
    else s3
  let score : ℝ := max 0 (min 100 s4)
  some { id := "KPI_Adherence_Score", value := some ((rheF score : ℤ) : ℝ),
         unit := "points (0-100)", windowDays := days, target := some 80,
         isGood := some (decide ((70 : ℝ) ≤ score)) }

/-- `KPIEngine.compute_all_kpis`: empty list on an empty derived table,
otherwise the twelve indicators in source order, skipping the ones whose
minimum-data gates fail. -/
noncomputable def computeAllKpis (bmr targetW : ℚ) (days : ℕ) (entries : List Entry) : List KPI :=
  let df := metricsTable bmr entries
  if df.isEmpty then [] else
    ([kpiWeightTrend7d df, kpiWeightChange30d df, kpiBfChange30d df,
      kpiFatMassChange30d df, kpiNetCalories7d df, kpiIntake7d df, kpiSport7d df,
      kpiConsistencyCoverage days df, kpiVolatilityWeight14d df, kpiStreakDays df,
      kpiGoalEta targetW df, kpiAdherenceScore days df]).filterMap id

/-- Summary record of `MetricsEngine.get_summary_stats` (the returned
dict); `weightStd` is the one genuinely irrational field. -/
structure SummaryStats where
  periodDays : ℕ
  dataCoverage : ℚ
  weightCurrent : ℚ
  weightStart : ℚ
  weightChange : ℚ
  weightAvg : ℚ
  weightMin : ℚ
  weightMax : ℚ
  weightStd : ℝ
  bfCurrent : Option ℚ
  bfAvg : Option ℚ
  fmCurrent : Option ℚ
  fmAvg : Option ℚ
  calNetAvg : Option ℚ
  calInAvg : Option ℚ
  calSportAvg : Option ℚ
  calOutBmr : ℚ
  calOutTotalAvg : ℚ
  weight7dAvg : Option ℚ
  weight14dAvg : Option ℚ

/-- `MetricsEngine.get_summary_stats`: `{}` (here `none`) on an empty
derived table, else the null-safe statistics dictionary. -/
noncomputable def getSummaryStats (bmr : ℚ) (days : ℕ) (entries : List Entry) : Option SummaryStats :=
  match metricsTable bmr entries with
  | [] => none
  | r0 :: rest =>
    let df := r0 :: rest
    let lastRow := (r0 :: rest).getLast (by simp)
    let ws := df.map Row.weight
    some { periodDays := days
           dataCoverage := (df.length : ℚ) / (days : ℚ) * 100
           weightCurrent := lastRow.weight
           weightStart := r0.weight
           weightChange := lastRow.weight - r0.weight
           weightAvg := meanQ ws
           weightMin := (rest.map Row.weight).foldl min r0.weight
           weightMax := (rest.map Row.weight).foldl max r0.weight
           weightStd := Real.sqrt ((varQ ws : ℚ) : ℝ)
           bfCurrent := if df.any (fun r => r.bodyfat.isSome) then lastRow.bodyfat else none
           bfAvg := if df.any (fun r => r.bodyfat.isSome) then
               some (meanQ (df.filterMap Row.bodyfat)) else none
           fmCurrent := if df.any (fun r => r.fatMassKg.isSome) then lastRow.fatMassKg else none
           fmAvg := if df.any (fun r => r.fatMassKg.isSome) then
               some (meanQ (df.filterMap Row.fatMassKg)) else none
           calNetAvg := if df.any (fun r => r.calNet.isSome) then
               some (meanQ (df.filterMap Row.calNet)) else none
           calInAvg := if df.any (fun r => r.calIn.isSome) then
               some (meanQ (df.filterMap Row.calIn)) else none
           calSportAvg := if df.any (fun r => r.calSport.isSome) then
               some (meanQ (df.filterMap Row.calSport)) else none
           calOutBmr := bmr
           calOutTotalAvg := if df.any (fun r => r.calSport.isSome) then
               bmr + meanQ (df.filterMap Row.calSport) else bmr
           weight7dAvg := lastRow.w7avg
           weight14dAvg := lastRow.w14avg }

/-- Forecast method tag. -/
inductive Method where
  | auto
  | linear
  | calorieBased
deriving DecidableEq, Repr

/-- The exceptions the forecast engine can raise: the insufficient-data
`ValueError` of `generate_forecast`, the trend `ValueError` of
`_forecast_linear`, and the `IndexError` of `forecasts[-1]` on an empty
forecast list. -/
inductive FErr where
  | insufficientData
  | insufficientTrend
  | indexError
deriving DecidableEq, Repr

/-- One forecast point (forecast.Forecast); the confidence bounds carry
square roots and are therefore real-valued. -/
structure FPoint where
  date : ℤ
  predicted : ℚ
  lo : ℝ
  hi : ℝ
  method : Method

/-- Forecast summary (forecast.ForecastSummary). -/
structure FSummary where
  horizonDays : ℕ
  startWeight : ℚ
  endWeight : ℚ
  totalChange : ℚ
  avgRatePerWeek : ℚ
  targetWeight : Option ℚ
  targetDate : Option ℤ
  confidence : ℝ
  method : Method

/-- OLS intercept (second line of the regression in `_forecast_linear`). -/
def interceptQ (xs ys : List ℚ) : ℚ :=
  (ys.sum - olsSlope xs ys * xs.sum) / (xs.length : ℚ)

/-- Residual sum of squares of the fitted line. -/
def ssResQ (xs ys : List ℚ) : ℚ :=
  ((xs.zip ys).map (fun p => (p.2 - (olsSlope xs ys * p.1 + interceptQ xs ys)) ^ 2)).sum

/-- Squared residual standard error `std_error² = Σresid² / (n − 2)`. -/
def stdErrSqQ (xs ys : List ℚ) : ℚ :=
  ssResQ xs ys / ((xs.length : ℚ) - 2)

/-- `np.sum((X - mean_x)**2)`, the denominator of the widening term. -/
def sxxQ (xs : List ℚ) : ℚ :=
  (xs.map (fun x => (x - meanQ xs) ^ 2)).sum

/-- The squared widening factor of the forecast standard error at
forecast day `d`: `1 + 1/n + (d − mean_x)² / Σ(X − mean_x)²`.  The code's
`se_forecast` is `√stdErrSq · √(gFactorQ)`. -/
def gFactorQ (xs : List ℚ) (d : ℚ) : ℚ :=
  1 + 1 / (xs.length : ℚ) + (d - meanQ xs) ^ 2 / sxxQ xs

/-- Trend-series selection of `_forecast_linear`: the rows with a non-null
7-day average (and that column) when at least 7 exist, else all rows with
the raw weight column. -/
def trendRowsCol (df : List Row) : List Row × List ℚ :=
  let dfa := df.filter (fun r => r.w7avg.isSome)
  if 7 ≤ dfa.length then (dfa, dfa.filterMap Row.w7avg)
  else (df, df.map Row.weight)

/-- `days_since_start` of the selected trend rows. -/
def daysSinceStart (rows : List Row) : List ℚ :=
  match rows.head? with
  | none => []
  | some r0 => rows.map (fun r => ((r.date - r0.date : ℤ) : ℚ))

/-- `_forecast_linear`: OLS on the trend series, one point per horizon
day with 2-standard-error bounds, and an R²-based confidence level. -/
noncomputable def forecastLinear (df : List Row) (horizon : ℕ) (target : Option ℚ) :
    Except FErr (List FPoint × FSummary) :=
  let sel := trendRowsCol df
  if sel.1.length < 7 then .error .insufficientTrend else
  let xs := daysSinceStart sel.1
  let ys := sel.2
  let slope := olsSlope xs ys
  let icpt := interceptQ xs ys
  let lastDate : ℤ := (sel.1.map Row.date).getLast?.getD 0
  let lastWeight : ℚ := ys.getLast?.getD 0
  let lastDay : ℚ := xs.getLast?.getD 0
  let pts : List FPoint := (List.range horizon).map (fun k =>
    let fd : ℚ := lastDay + (k + 1 : ℕ)
    let pw := slope * fd + icpt
    { date := lastDate + (k + 1 : ℕ), predicted := pw,
      lo := ((pw : ℚ) : ℝ) -
        2 * (Real.sqrt ((stdErrSqQ xs ys : ℚ) : ℝ) * Real.sqrt ((gFactorQ xs fd : ℚ) : ℝ)),
      hi := ((pw : ℚ) : ℝ) +
        2 * (Real.sqrt ((stdErrSqQ xs ys : ℚ) : ℝ) * Real.sqrt ((gFactorQ xs fd : ℚ) : ℝ)),
      method := .linear })
  match pts.getLast? with
  | none => .error .indexError
  | some lastPt =>
    let ssTot := (ys.map (fun y => (y - meanQ ys) ^ 2)).sum
    let r2 : ℚ := if 0 < ssTot then 1 - ssResQ xs ys / ssTot else 0
    let tdate : Option ℤ :=
      match target with
      | some t =>
        if t ≠ 0 ∧ slope ≠ 0 then
          let dtt := (t - lastWeight) / slope
          if 0 < dtt ∧ dtt ≤ 365 then some (lastDate + ⌊dtt⌋) else none
        else none
      | none => none
    .ok (pts,
      { horizonDays := horizon, startWeight := lastWeight, endWeight := lastPt.predicted,
        totalChange := lastPt.predicted - lastWeight, avgRatePerWeek := slope * 7,
        targetWeight := target, targetDate := tdate,
        confidence := ((max 0 (min 1 r2) : ℚ) : ℝ), method := .linear })

/-- `_forecast_calorie_based`: mean net balance divided by 7700 kcal/kg,
with heuristic uncertainty growth; falls back to the linear method when
fewer than 7 calorie rows exist. -/
noncomputable def forecastCalorie (df : List Row) (horizon : ℕ) (target : Option ℚ) :
    Except FErr (List FPoint × FSummary) :=
  let calData := df.filter (fun r => r.calNet.isSome)
  if calData.length < 7 then forecastLinear df horizon target else
  match df.getLast? with
  | none => .error .indexError
  | some lastRow =>
    let avgNet := meanQ (calData.filterMap Row.calNet)
    let dwc := avgNet / 7700
    let varC := varQ (calData.filterMap Row.calNet)
    let varW := varQ (df.map Row.weight)
    let pts : List FPoint := (List.range horizon).map (fun k =>
      let i : ℕ := k + 1
      let pw := lastRow.weight + dwc * i
      let unc : ℝ :=
        (Real.sqrt ((varW : ℚ) : ℝ) * (1 / 2) +
          Real.sqrt ((varC : ℚ) : ℝ) / 7700 * i * (1 / 2)) * Real.sqrt ((i : ℝ) / 7)
      { date := lastRow.date + i, predicted := pw,
        lo := ((pw : ℚ) : ℝ) - 2 * unc, hi := ((pw : ℚ) : ℝ) + 2 * unc,
        method := .calorieBased })
    match pts.getLast? with
    | none => .error .indexError
    | some lastPt =>
      let coverage : ℚ := (calData.length : ℚ) / (df.length : ℚ)
      let consistency : ℝ :=
        if avgNet ≠ 0 then 1 - Real.sqrt ((varC : ℚ) : ℝ) / ((|avgNet| : ℚ) : ℝ) else 1 / 2
      let tdate : Option ℤ :=
        match target with
        | some t =>
          if t ≠ 0 ∧ dwc ≠ 0 then
            let dtt := (t - lastRow.weight) / dwc
            if 0 < dtt ∧ dtt ≤ 365 then some (lastRow.date + ⌊dtt⌋) else none
          else none
        | none => none
      .ok (pts,
        { horizonDays := horizon, startWeight := lastRow.weight, endWeight := lastPt.predicted,
          totalChange := lastPt.predicted - lastRow.weight, avgRatePerWeek := dwc * 7,
          targetWeight := target, targetDate := tdate,
          confidence := max 0 (min 1 (((coverage : ℚ) : ℝ) * consistency)),
          method := .calorieBased })

/-- The `auto` method-selection rule of `generate_forecast`: calorie-based
iff the count of non-null net-calorie rows reaches `lookback_days * 0.5`
(note: half of the *requested* window length, not of the row count). -/
def selectMethod (df : List Row) (lookback : ℕ) (m : Method) : Method :=
  match m with
  | .auto =>
    if (lookback : ℚ) * (1 / 2) ≤ (df.countP (fun r => r.calNet.isSome) : ℚ) then
      .calorieBased
    else .linear
  | m => m

/-- `ForecastEngine.generate_forecast`: insufficient-data error below 7
rows, otherwise method resolution and dispatch. -/
noncomputable def generateForecast (bmr : ℚ) (horizon lookback : ℕ) (target : Option ℚ)
    (m : Method) (entries : List Entry) : Except FErr (List FPoint × FSummary) :=
  let df := metricsTable bmr entries
  if df.isEmpty ∨ df.length < 7 then .error .insufficientData else
  match selectMethod df lookback m with
  | .calorieBased => forecastCalorie df horizon target
  | _ => forecastLinear df horizon target

/-- Return record of `calculate_target_calories`. -/
structure TargetCalc where
  requiredIntake : ℚ
  dailyNet : ℚ
  weeklyRate : ℚ
  totalChange : ℚ
  isHealthy : Bool
deriving DecidableEq, Repr

/-- `ForecastEngine.calculate_target_calories`: intake needed to reach the
target in the given days.  `none` models the `ZeroDivisionError` raised on
`target_days = 0`. -/
def calcTargetCalories (bmr targetW : ℚ) (targetDays : ℤ) (currentW avgSport : ℚ) :
    Option TargetCalc :=
  if targetDays = 0 then none else
  let wch := targetW - currentW
  let dailyNet := wch * 7700 / (targetDays : ℚ)
  let weekly := wch / (targetDays : ℚ) * 7
  some { requiredIntake := dailyNet + bmr + avgSport, dailyNet := dailyNet,
         weeklyRate := weekly, totalChange := wch,
         isHealthy := decide (|weekly| ≤ 1) }

/-! ### Auxiliary notions used by the claim statements -/

/-- The three rolling windows of the derived table. -/
inductive Win where
  | w7
  | w14
  | w30
deriving DecidableEq, Repr

/-- Window length in days. -/
def Win.days : Win → ℕ
  | .w7 => 7
  | .w14 => 14
  | .w30 => 30

/-- The two source columns that get rolling averages. -/
inductive SrcCol where
  | weight
  | net
deriving DecidableEq, Repr

/-- Select a rolling-average column of a derived row. -/
def avgSel : SrcCol → Win → Row → Option ℚ
  | .weight, .w7 => Row.w7avg
  | .weight, .w14 => Row.w14avg
  | .weight, .w30 => Row.w30avg
  | .net, .w7 => Row.n7avg
  | .net, .w14 => Row.n14avg
  | .net, .w30 => Row.n30avg

/-- The source values a rolling average is computed from, in
available-date order. -/
def colVals (bmr : ℚ) (c : SrcCol) (s : List Entry) : List (Option ℚ) :=
  match c with
  | .weight => s.map (fun e => (some e.weight : Option ℚ))
  | .net => s.map (netCal bmr)

/-- Number of non-null source values among the trailing `w` positions
ending at position `i` (positions before the start of the data count as
absent). -/
def trailingNonNull (w : ℕ) (vals : List (Option ℚ)) (i : ℕ) : ℕ :=
  ((vals.take (i + 1)).drop (i + 1 - w)).countP (fun o => o.isSome)

/-- Modelled from the spec: the spec's coverage threshold `⌈0.7 × W⌉`
(the code uses a truncation instead; this definition exists only to be
compared against the implementation). -/
def specCeil (w : ℕ) : ℕ := (7 * w + 9) / 10

/-! ### Example inputs -/

/-- Four consecutive days of constant weight, no calorie data. -/
def entriesFourDays : List Entry :=
  (List.range 4).map (fun i => ⟨i, 80, none, none, none⟩)

/-- Ten consecutive days, every row with full calorie data. -/
def entriesCalOnly10 : List Entry :=
  (List.range 10).map (fun i => ⟨i, 85, none, some 2000, some 400⟩)

/-- Thirty consecutive days of constant 70 kg with calorie data. -/
def entriesSeventyKg : List Entry :=
  (List.range 30).map (fun i => ⟨i, 70, none, some 2000, some 200⟩)

/-- Fourteen consecutive days, weight falling by exactly 0.15 kg/day. -/
def entriesDecreasing14 : List Entry :=
  (List.range 14).map (fun i => ⟨i, 85 - 3 / 20 * i, none, none, none⟩)

/-- Seven consecutive days of perfectly constant weight. -/
def entriesConstant7 : List Entry :=
  (List.range 7).map (fun i => ⟨i, 85, none, none, none⟩)

/-- A derived row carrying only a date and a weight. -/
def plainRow (d : ℤ) (w : ℚ) : Row :=
  ⟨d, w, none, none, none, none, none, none, none, none, none, none, none, none⟩

/-- Twenty-one plain rows of constant 80 kg. -/
def stalledRows : List Row :=
  (List.range 21).map (fun i => plainRow i 80)

/-! ### C10 and C9: the target-calorie calculator -/

/-- C10: `calculate_target_calories` divides by `target_days` without a
guard; it raises (returns `none`) exactly on `target_days = 0`, and
returns normally for every non-zero value. -/
theorem c10_target_days_division (bmr targetW : ℚ) (d : ℤ) (currentW avgSport : ℚ) :
    calcTargetCalories bmr targetW d currentW avgSport = none ↔ d = 0 := by
  rcases eq_or_ne d 0 with h | h <;> simp [calcTargetCalories, h]

/-- C9: for positive `target_days` the calculator returns
`required_intake = (target − current) · 7700 / days + BMR + sport`,
`weekly_rate = (target − current) / days · 7`, and `is_healthy` exactly
when `|weekly_rate| ≤ 1`. -/
theorem c9_target_calories_formulas (bmr targetW : ℚ) (d : ℤ) (currentW avgSport : ℚ)
    (hd : 0 < d) :
    calcTargetCalories bmr targetW d currentW avgSport =
      some { requiredIntake := (targetW - currentW) * 7700 / (d : ℚ) + bmr + avgSport,
             dailyNet := (targetW - currentW) * 7700 / (d : ℚ),
             weeklyRate := (targetW - currentW) / (d : ℚ) * 7,
             totalChange := targetW - currentW,
             isHealthy := decide (|(targetW - currentW) / (d : ℚ) * 7| ≤ 1) } ∧
    (∀ r, calcTargetCalories bmr targetW d currentW avgSport = some r →
      (r.isHealthy = true ↔ |r.weeklyRate| ≤ 1)) := by
  have hne : d ≠ 0 := hd.ne'
  constructor
  · simp [calcTargetCalories, hne]
  · intro r hr
    simp only [calcTargetCalories, if_neg hne, Option.some.injEq] at hr
    subst hr
    simp

/-- Witness for C9 at `(BMR 2000, target 75, 30 days, current 85,
sport 300)`. -/
theorem c9_target_calories_witness :
    (0 : ℤ) < 30 ∧
    calcTargetCalories 2000 75 30 85 300 =
      some { requiredIntake := -800 / 3, dailyNet := -7700 / 3,
             weeklyRate := -7 / 3, totalChange := -10, isHealthy := false } :=
  ⟨by decide, by
    rw [(c9_target_calories_formulas 2000 75 30 85 300 (by decide)).1]
    with_unfolding_all rfl⟩

/-! ### C6: net-calorie nullability -/

/-- C6: on every derived row, `net_calories` is null exactly when
`calories_in` is null, and otherwise equals
`calories_in − BMR − (calories_exercise_out or 0)`. -/
theorem c6_net_calories_nullability (bmr : ℚ) (entries : List Entry) :
    (metricsTable bmr entries).map Row.calNet =
      (metricsTable bmr entries).map
        (fun r => r.calIn.map (fun c => c - bmr - r.calSport.getD 0)) := by
  unfold metricsTable
  simp only [List.map_map]
  rfl

/-! ### C4: auto method selection -/

/-- C4 counterexample: ten rows, all with net calories, inside a 30-day
lookback; every row (100% ≥ 50%) has calorie data, yet the linear method
is selected, because the code compares the count against
`lookback_days * 0.5` rather than against half the row count. -/
theorem c4_counterexample :
    ¬ (selectMethod (metricsTable 2000 entriesCalOnly10) 30 .auto = .calorieBased ↔
        ((metricsTable 2000 entriesCalOnly10).length : ℚ) * (1 / 2) ≤
          ((metricsTable 2000 entriesCalOnly10).countP (fun r => r.calNet.isSome) : ℚ)) ∧
    selectMethod (metricsTable 2000 entriesCalOnly10) 30 .auto = .linear ∧
    (metricsTable 2000 entriesCalOnly10).length = 10 ∧
    (metricsTable 2000 entriesCalOnly10).countP (fun r => r.calNet.isSome) = 10 := by
  refine ⟨?_, by with_unfolding_all decide, by with_unfolding_all decide,
    by with_unfolding_all decide⟩
  with_unfolding_all decide

/-- C4 amended: with at least 7 rows available, `auto` selects the
calorie-based method iff the number of rows with non-null net calories
reaches half of `lookback_days` (the requested window length), else the
linear method. -/
theorem c4_method_selection_amended (bmr : ℚ) (entries : List Entry) (lookback : ℕ)
    (h7 : 7 ≤ (metricsTable bmr entries).length) :
    (selectMethod (metricsTable bmr entries) lookback .auto = .calorieBased ↔
      (lookback : ℚ) * (1 / 2) ≤
        ((metricsTable bmr entries).countP (fun r => r.calNet.isSome) : ℚ)) ∧
    (selectMethod (metricsTable bmr entries) lookback .auto = .calorieBased ∨
      selectMethod (metricsTable bmr entries) lookback .auto = .linear) := by
  unfold selectMethod
  by_cases hc : (lookback : ℚ) * (1 / 2) ≤
      ((metricsTable bmr entries).countP (fun r => r.calNet.isSome) : ℚ)
  · rw [if_pos hc]
    exact ⟨iff_of_true rfl hc, Or.inl rfl⟩
  · rw [if_neg hc]
    exact ⟨iff_of_false (by simp) hc, Or.inr rfl⟩

/-- Witness for C4 at the ten-row table with a 30-day lookback. -/
theorem c4_method_selection_witness :
    7 ≤ (metricsTable 2000 entriesCalOnly10).length ∧
    ((selectMethod (metricsTable 2000 entriesCalOnly10) 30 .auto = .calorieBased ↔
      (30 : ℚ) * (1 / 2) ≤
        ((metricsTable 2000 entriesCalOnly10).countP (fun r => r.calNet.isSome) : ℚ)) ∧
    (selectMethod (metricsTable 2000 entriesCalOnly10) 30 .auto = .calorieBased ∨
      selectMethod (metricsTable 2000 entriesCalOnly10) 30 .auto = .linear)) :=
  ⟨by with_unfolding_all decide,
    c4_method_selection_amended 2000 entriesCalOnly10 30 (by with_unfolding_all decide)⟩

/-! ### C1: rolling-average coverage rule -/

/-- Counting surviving elements of `filterMap id` is counting the
non-null positions. -/
theorem length_filterMap_id (l : List (Option ℚ)) :
    (l.filterMap id).length = l.countP (fun o => o.isSome) := by
  induction l with
  | nil => rfl
  | cons o t ih =>
    cases o <;> simp [List.countP_cons, ih]

/-- A rolling cell is non-null exactly when the trailing window holds at
least `minPeriods w` non-null values. -/
theorem rollCell_isSome (w : ℕ) (vals : List (Option ℚ)) (i : ℕ) :
    (rollCell w vals i).isSome = true ↔ minPeriods w ≤ trailingNonNull w vals i := by
  simp only [rollCell, trailingNonNull]
  rw [← length_filterMap_id]
  split <;> simp [*]

/-- Indexing the rolling-average column below the data length yields the
corresponding cell. -/
theorem rollingAvg_getD (w : ℕ) (vals : List (Option ℚ)) (i : ℕ) (hi : i < vals.length) :
    (rollingAvg w vals).getD i none = rollCell w vals i := by
  unfold rollingAvg
  rw [List.getD_eq_getElem?_getD]
  simp [List.getElem?_range, hi]

/-- C1 counterexample: four recorded days of weight; at row position 3 the
7-day rolling average is non-null although only 4 of the trailing 7
positions carry values, while the spec's `⌈0.7 × 7⌉ = 5` rule demands
null there. -/
theorem c1_ceil_counterexample :
    ¬ ((((metricsTable 2000 entriesFourDays)[3]?).bind (avgSel .weight .w7)).isSome = true ↔
        specCeil 7 ≤ trailingNonNull 7 (colVals 2000 .weight (sortEntries entriesFourDays)) 3) ∧
    trailingNonNull 7 (colVals 2000 .weight (sortEntries entriesFourDays)) 3 = 4 ∧
    specCeil 7 = 5 := by
  refine ⟨?_, by with_unfolding_all decide, by decide⟩
  with_unfolding_all decide

/-- C1 amended: for every derived table, window and source column, the
rolling average at row position `i` is non-null iff at least
`max(1, ⌊0.7 × W⌋)` (4, 9, 21 for the three windows; the code truncates
instead of taking the ceiling) of the trailing `W` row positions carry a
non-null source value. -/
theorem c1_rolling_density_amended (bmr : ℚ) (entries : List Entry) (c : SrcCol) (w : Win)
    (i : ℕ) (hi : i < (metricsTable bmr entries).length) :
    (((metricsTable bmr entries)[i]?).bind (avgSel c w)).isSome = true ↔
      minPeriods w.days ≤ trailingNonNull w.days (colVals bmr c (sortEntries entries)) i := by
  have hlen : (metricsTable bmr entries).length = (sortEntries entries).length := by
    simp [metricsTable]
  rw [hlen] at hi
  have hget : (sortEntries entries)[i]? = some ((sortEntries entries)[i]) :=
    List.getElem?_eq_getElem hi
  cases c <;> cases w <;>
    · show ((((sortEntries entries).enum.map _)[i]?).bind _).isSome = true ↔ _
      rw [List.getElem?_map, List.getElem?_enum, hget]
      simp only [Option.map_some', Option.some_bind, avgSel]
      rw [rollingAvg_getD _ _ _ (by simpa using hi)]
      exact rollCell_isSome _ _ _

/-- Witness for C1 at row position 3 of the four-day table. -/
theorem c1_rolling_density_witness :
    3 < (metricsTable 2000 entriesFourDays).length ∧
    ((((metricsTable 2000 entriesFourDays)[3]?).bind (avgSel .weight .w7)).isSome = true ↔
      minPeriods (Win.days .w7) ≤
        trailingNonNull (Win.days .w7) (colVals 2000 .weight (sortEntries entriesFourDays)) 3) :=
  ⟨by with_unfolding_all decide,
    c1_rolling_density_amended 2000 entriesFourDays .weight .w7 3
      (by with_unfolding_all decide)⟩

/-! ### C5: high-weight gate of the plateau and stalled-progress flags -/

/-- C5 counterexample: thirty days of constant 70 kg.  The plateau flag is
emitted although the end-of-window weight (70) does not exceed 75 — the
literal 75 gate exists only in the stalled-progress rule. -/
theorem c5_plateau_counterexample :
    ((detectAllFlags 2000 30 entriesSeventyKg).getD []).countP
        (fun f => f.id == "RF_Plateau") = 1 ∧
    ((metricsTable 2000 entriesSeventyKg).getLast?).map Row.weight = some 70 ∧
    ¬ (75 < (70 : ℚ)) :=
  ⟨by with_unfolding_all decide, by with_unfolding_all decide,
    by with_unfolding_all decide⟩

/-- C5 amended: only the stalled-progress flag is gated on the end weight:
whenever `_detect_stalled_progress` emits anything, the last row of the
date-sorted window weighs more than 75.  (The plateau flag carries no such
gate, as the counterexample shows.) -/
theorem c5_stalled_gate_amended (rows : List Row)
    (h : (detectStalledProgress rows).getD [] ≠ []) :
    ∃ r, (sortRows rows).getLast? = some r ∧ 75 < r.weight := by
  simp only [detectStalledProgress] at h
  split at h
  · simp at h
  · split at h
    · rename_i a b hh hl
      split at h
      · split at h
        · rename_i habs h75
          exact ⟨b, hl, h75⟩
        · simp at h
      · simp at h
    · simp at h

/-- Witness for C5 on twenty-one rows of constant 80 kg. -/
theorem c5_stalled_gate_witness :
    (detectStalledProgress stalledRows).getD [] ≠ [] ∧
    ∃ r, (sortRows stalledRows).getLast? = some r ∧ 75 < r.weight :=
  ⟨by with_unfolding_all decide,
    c5_stalled_gate_amended stalledRows (by with_unfolding_all decide)⟩

/-! ### C7: the goal-ETA KPI -/

/-- The "current" weight of `_kpi_goal_eta`: the latest non-null 7-day
average, else the latest raw weight. -/
def goalCurrentWeight (df : List Row) : ℚ :=
  match (df.filterMap Row.w7avg).getLast? with
  | some c => c
  | none => (df.map Row.weight).getLast?.getD 0

/-- The OLS slope over the last 14 raw weights used by
`_kpi_goal_eta`. -/
def goalSlope (df : List Row) : ℚ :=
  olsSlope (idxList (df.drop (df.length - 14)).length) ((df.drop (df.length - 14)).map Row.weight)

/-- C7 counterexample: fourteen days of weight falling 0.15 kg/day with
target 75.  The exact days-to-target is 170/3 ≈ 56.67, but the KPI's value
field is the rounded 57, so the value is not `(current − target)/|slope|`
as the claim states. -/
theorem c7_rounding_counterexample :
    (kpiGoalEta 75 (metricsTable 2000 entriesDecreasing14)).map (fun k => k.value) =
      some (some ((57 : ℚ) : ℝ)) ∧
    (goalCurrentWeight (metricsTable 2000 entriesDecreasing14) - 75) /
        |goalSlope (metricsTable 2000 entriesDecreasing14)| = 170 / 3 ∧
    ((57 : ℚ) : ℝ) ≠ ((170 / 3 : ℚ) : ℝ) := by
  refine ⟨by with_unfolding_all rfl, by with_unfolding_all decide, ?_⟩
  rw [ne_eq, Rat.cast_inj]
  norm_num

/-- C7 amended: with at least 14 rows, a non-negative 14-point OLS slope
yields a null value judged not-good; a negative slope yields
`(current − target)/|slope|` rounded to the nearest whole day, with
`current` the latest non-null 7-day average when one exists, else the
latest raw weight. -/
theorem c7_goal_eta_amended (targetW : ℚ) (df : List Row) (h14 : 14 ≤ df.length) :
    (0 ≤ goalSlope df →
      kpiGoalEta targetW df =
        some ⟨"KPI_Goal_ETA", none, "days", 14, none, some false⟩) ∧
    (goalSlope df < 0 →
      kpiGoalEta targetW df = some ⟨"KPI_Goal_ETA",
        some ((rheQ0 ((goalCurrentWeight df - targetW) / |goalSlope df|) : ℚ) : ℝ),
        "days", 14, some 90,
        some (decide ((goalCurrentWeight df - targetW) / |goalSlope df| ≤ 120))⟩) := by
  have hno : ¬ df.length < 14 := not_lt.mpr h14
  simp only [kpiGoalEta, goalSlope, goalCurrentWeight]
  rw [if_neg hno]
  constructor
  · intro hs
    rw [if_pos hs]
  · intro hs
    rw [if_neg (not_le.mpr hs)]

/-- Witness for C7 on the decreasing fourteen-day table. -/
theorem c7_goal_eta_witness :
    14 ≤ (metricsTable 2000 entriesDecreasing14).length ∧
    goalSlope (metricsTable 2000 entriesDecreasing14) < 0 ∧
    kpiGoalEta 75 (metricsTable 2000 entriesDecreasing14) = some ⟨"KPI_Goal_ETA",
      some ((rheQ0 ((goalCurrentWeight (metricsTable 2000 entriesDecreasing14) - 75) /
        |goalSlope (metricsTable 2000 entriesDecreasing14)|) : ℚ) : ℝ),
      "days", 14, some 90,
      some (decide ((goalCurrentWeight (metricsTable 2000 entriesDecreasing14) - 75) /
        |goalSlope (metricsTable 2000 entriesDecreasing14)| ≤ 120))⟩ :=
  ⟨by with_unfolding_all decide, by with_unfolding_all decide,
    (c7_goal_eta_amended 75 _ (by with_unfolding_all decide)).2
      (by with_unfolding_all decide)⟩

/-! ### C2: the red-flags engine never raises -/

/-- A non-empty list has both a head and a last element. -/
theorem exists_head_last {α : Type} (l : List α) (h : l ≠ []) :
    ∃ a b, l.head? = some a ∧ l.getLast? = some b := by
  cases l with
  | nil => exact absurd rfl h
  | cons x xs =>
    refine ⟨x, ?_⟩
    cases hl : (x :: xs).getLast? with
    | none => exact absurd (List.getLast?_eq_none_iff.mp hl) (by simp)
    | some b => exact ⟨b, rfl, rfl⟩

/-- Folding `gapPick` from a present accumulator stays present. -/
theorem gapPick_foldl_isSome (ps : List (Row × Row)) (q : Row × Row) :
    (ps.foldl gapPick (some q)).isSome = true := by
  induction ps generalizing q with
  | nil => rfl
  | cons p ps ih =>
    simp only [List.foldl_cons, gapPick]
    split <;> apply ih

/-- The maximal-gap pair exists whenever there is at least one pair. -/
theorem maxGapPair_isSome (pairs : List (Row × Row)) (h : pairs ≠ []) :
    (maxGapPair pairs).isSome = true := by
  unfold maxGapPair
  cases pairs with
  | nil => exact absurd rfl h
  | cons p ps =>
    simp only [List.foldl_cons, gapPick]
    exact gapPick_foldl_isSome ps p

/-- Inserting preserves length. -/
theorem insertRowByDate_length (e : Row) (l : List Row) :
    (insertRowByDate e l).length = l.length + 1 := by
  induction l with
  | nil => rfl
  | cons x xs ih =>
    simp only [insertRowByDate]
    split <;> simp [ih]

/-- The row sort preserves length. -/
theorem sortRows_length (l : List Row) : (sortRows l).length = l.length := by
  unfold sortRows
  induction l with
  | nil => rfl
  | cons x xs ih => simp [insertRowByDate_length, ih]

/-- `_detect_missing_data` returns for every positive `days`. -/
theorem detectMissingData_isSome (days : ℕ) (df : List Row) (hd : days ≠ 0) :
    (detectMissingData days df).isSome = true := by
  simp only [detectMissingData]
  rw [if_neg hd]
  split
  · rename_i hlen
    split
    · rename_i hmg
      exfalso
      have hp : (sortRows df).zip (sortRows df).tail ≠ [] := by
        have h1 : 0 < ((sortRows df).zip (sortRows df).tail).length := by
          rw [List.length_zip, List.length_tail]
          omega
        exact List.ne_nil_of_length_pos h1
      have := maxGapPair_isSome _ hp
      rw [hmg] at this
      simp at this
    · split <;> simp
  · simp

/-- `_detect_inconsistent_tracking` returns on every non-empty frame. -/
theorem detectInconsistentTracking_isSome (df : List Row) (h : df ≠ []) :
    (detectInconsistentTracking df).isSome = true := by
  simp only [detectInconsistentTracking]
  rw [if_neg (by simpa using h)]
  rfl

/-- `_detect_duplicate_patterns` always returns. -/
theorem detectDuplicatePatterns_isSome (df : List Row) :
    (detectDuplicatePatterns df).isSome = true := by
  simp only [detectDuplicatePatterns]
  split
  · split <;> rfl
  · rfl

/-- `_detect_extreme_weight_changes` always returns. -/
theorem detectExtremeWeightChanges_isSome (df : List Row) :
    (detectExtremeWeightChanges df).isSome = true := by
  simp only [detectExtremeWeightChanges]
  split <;> rfl

/-- `_detect_extreme_calorie_deficit` always returns. -/
theorem detectExtremeCalorieDeficit_isSome (df : List Row) :
    (detectExtremeCalorieDeficit df).isSome = true := by
  simp only [detectExtremeCalorieDeficit]
  split <;> rfl

/-- `_detect_extreme_calorie_surplus` always returns. -/
theorem detectExtremeCalorieSurplus_isSome (df : List Row) :
    (detectExtremeCalorieSurplus df).isSome = true := by
  simp only [detectExtremeCalorieSurplus]
  split
  · rfl
  · split <;> rfl

/-- `_detect_low_calorie_intake` always returns. -/
theorem detectLowCalorieIntake_isSome (df : List Row) :
    (detectLowCalorieIntake df).isSome = true := by
  simp only [detectLowCalorieIntake]
  split
  · rfl
  · split <;> rfl

/-- `_detect_rapid_fat_loss` always returns: behind the `≥ 10` gate the
window is non-empty, so its first and last elements exist. -/
theorem detectRapidFatLoss_isSome (df : List Row) :
    (detectRapidFatLoss df).isSome = true := by
  simp only [detectRapidFatLoss]
  split
  · rfl
  · split
    · rename_i h10
      split
      · split <;> rfl
      · rename_i hwild
        exfalso
        have hne : (sortRows (df.filter (fun r => r.fatMassKg.isSome))).drop
            ((sortRows (df.filter (fun r => r.fatMassKg.isSome))).length - 14) ≠ [] := by
          intro he
          rw [he] at h10
          simp at h10
        obtain ⟨a, b, ha, hb⟩ := exists_head_last _ hne
        exact hwild a b ha hb
    · rfl

/-- `_detect_weight_plateaus` always returns. -/
theorem detectWeightPlateaus_isSome (df : List Row) :
    (detectWeightPlateaus df).isSome = true := by
  simp only [detectWeightPlateaus]
  split
  · rfl
  · split
    · rename_i h10
      split
      · split <;> rfl
      · rename_i hwild
        exfalso
        have hne : ((sortRows df).filter (fun r => r.w14avg.isSome)).drop
            (((sortRows df).filter (fun r => r.w14avg.isSome)).length - 14) ≠ [] := by
          intro he
          rw [he] at h10
          simp at h10
        obtain ⟨a, b, ha, hb⟩ := exists_head_last _ hne
        exact hwild a b ha hb
    · rfl

/-- `_detect_yo_yo_pattern` always returns. -/
theorem detectYoYoPattern_isSome (df : List Row) :
    (detectYoYoPattern df).isSome = true := by
  simp only [detectYoYoPattern]
  split
  · rfl
  · split <;> rfl

/-- `_detect_inconsistent_bodyfat` always returns. -/
theorem detectInconsistentBodyfat_isSome (df : List Row) :
    (detectInconsistentBodyfat df).isSome = true := by
  simp only [detectInconsistentBodyfat]
  split <;> rfl

/-- `_detect_stalled_progress` always returns: behind the `≥ 21` gate the
sorted window is non-empty. -/
theorem detectStalledProgress_isSome (df : List Row) :
    (detectStalledProgress df).isSome = true := by
  simp only [detectStalledProgress]
  split
  · rfl
  · rename_i h21
    split
    · split
      · split <;> rfl
      · rfl
    · rename_i hwild
      exfalso
      have hne : sortRows df ≠ [] := by
        intro he
        have hlen := sortRows_length df
        rw [he] at hlen
        simp at hlen
        omega
      obtain ⟨a, b, ha, hb⟩ := exists_head_last _ hne
      exact hwild a b ha hb

/-- `_detect_unexpected_weight_gain` always returns. -/
theorem detectUnexpectedWeightGain_isSome (df : List Row) :
    (detectUnexpectedWeightGain df).isSome = true := by
  simp only [detectUnexpectedWeightGain]
  split
  · rfl
  · rename_i h14
    split
    · split
      · split
        · split <;> rfl
        · rename_i hwild
          exfalso
          have hne : sortRows df ≠ [] := by
            intro he
            have hlen := sortRows_length df
            rw [he] at hlen
            simp at hlen
            omega
          obtain ⟨a, b, ha, hb⟩ := exists_head_last _ hne
          exact hwild a b ha hb
      · rfl
    · rfl

/-- C2: for every storage contents and positive `days`,
`detect_all_flags` returns a list (never raises), and in particular
returns the empty list when no records exist. -/
theorem c2_detect_all_flags_total (bmr : ℚ) (days : ℕ) (entries : List Entry)
    (hd : 0 < days) :
    (detectAllFlags bmr days entries).isSome = true ∧
    (entries = [] → detectAllFlags bmr days entries = some []) := by
  constructor
  · simp only [detectAllFlags]
    split
    · rfl
    · rename_i hne
      have hdf : metricsTable bmr entries ≠ [] := by
        simpa [List.isEmpty_iff] using hne
      obtain ⟨l1, h1⟩ := Option.isSome_iff_exists.mp
        (detectMissingData_isSome days (metricsTable bmr entries) hd.ne')
      obtain ⟨l2, h2⟩ := Option.isSome_iff_exists.mp (detectInconsistentTracking_isSome _ hdf)
      obtain ⟨l3, h3⟩ := Option.isSome_iff_exists.mp (detectDuplicatePatterns_isSome
        (metricsTable bmr entries))
      obtain ⟨l4, h4⟩ := Option.isSome_iff_exists.mp (detectExtremeWeightChanges_isSome
        (metricsTable bmr entries))
      obtain ⟨l5, h5⟩ := Option.isSome_iff_exists.mp (detectExtremeCalorieDeficit_isSome
        (metricsTable bmr entries))
      obtain ⟨l6, h6⟩ := Option.isSome_iff_exists.mp (detectExtremeCalorieSurplus_isSome
        (metricsTable bmr entries))
      obtain ⟨l7, h7⟩ := Option.isSome_iff_exists.mp (detectLowCalorieIntake_isSome
        (metricsTable bmr entries))
      obtain ⟨l8, h8⟩ := Option.isSome_iff_exists.mp (detectRapidFatLoss_isSome
        (metricsTable bmr entries))
      obtain ⟨l9, h9⟩ := Option.isSome_iff_exists.mp (detectWeightPlateaus_isSome
        (metricsTable bmr entries))
      obtain ⟨l10, h10⟩ := Option.isSome_iff_exists.mp (detectYoYoPattern_isSome
        (metricsTable bmr entries))
      obtain ⟨l11, h11⟩ := Option.isSome_iff_exists.mp (detectInconsistentBodyfat_isSome
        (metricsTable bmr entries))
      obtain ⟨l12, h12⟩ := Option.isSome_iff_exists.mp (detectStalledProgress_isSome
        (metricsTable bmr entries))
      obtain ⟨l13, h13⟩ := Option.isSome_iff_exists.mp (detectUnexpectedWeightGain_isSome
        (metricsTable bmr entries))
      simp [h1, h2, h3, h4, h5, h6, h7, h8, h9, h10, h11, h12, h13]
  · intro he
    subst he
    rfl

/-- Witness for C2 at the empty store with a 30-day window. -/
theorem c2_detect_all_flags_witness :
    0 < 30 ∧
    ((detectAllFlags 2000 30 ([] : List Entry)).isSome = true ∧
      (([] : List Entry) = [] → detectAllFlags 2000 30 ([] : List Entry) = some [])) :=
  ⟨by decide, c2_detect_all_flags_total 2000 30 [] (by decide)⟩

/-! ### C8: empty-store behavior of all four engines -/

/-- The linear forecaster never raises the insufficient-data error of
`generate_forecast` (its own failures are the trend error and the
empty-horizon index error). -/
theorem forecastLinear_no_data_error (df : List Row) (horizon : ℕ) (target : Option ℚ) :
    forecastLinear df horizon target ≠ .error .insufficientData := by
  simp only [forecastLinear]
  split
  · simp
  · split <;> simp

/-- The calorie forecaster never raises the insufficient-data error. -/
theorem forecastCalorie_no_data_error (df : List Row) (horizon : ℕ) (target : Option ℚ) :
    forecastCalorie df horizon target ≠ .error .insufficientData := by
  simp only [forecastCalorie]
  split
  · exact forecastLinear_no_data_error _ _ _
  · split
    · simp
    · split <;> simp

/-- C8: on the empty record store the metrics engine yields the empty
table and the empty summary, the KPI engine the empty list, the red-flags
engine the empty list; and the forecast engine raises the
insufficient-data error exactly when the lookback window yields fewer
than 7 rows. -/
theorem c8_empty_store_behavior (bmr targetW : ℚ) (days horizon lookback : ℕ)
    (target : Option ℚ) (m : Method) :
    metricsTable bmr ([] : List Entry) = [] ∧
    getSummaryStats bmr days ([] : List Entry) = none ∧
    computeAllKpis bmr targetW days ([] : List Entry) = [] ∧
    detectAllFlags bmr days ([] : List Entry) = some [] ∧
    (∀ entries : List Entry,
      generateForecast bmr horizon lookback target m entries = .error .insufficientData ↔
        (metricsTable bmr entries).length < 7) := by
  refine ⟨rfl, rfl, rfl, rfl, fun entries => ?_⟩
  simp only [generateForecast]
  by_cases h : (metricsTable bmr entries).length < 7
  · rw [if_pos (Or.inr h)]
    simpa using h
  · have hcond : ¬ ((metricsTable bmr entries).isEmpty = true ∨
        (metricsTable bmr entries).length < 7) := by
      rintro (he | hlt)
      · rw [List.isEmpty_iff.mp he] at h
        exact h (by simp)
      · exact h hlt
    rw [if_neg hcond]
    constructor
    · intro hres
      exfalso
      rcases hm : selectMethod (metricsTable bmr entries) lookback m with _ | _ | _ <;>
        rw [hm] at hres
      · exact forecastLinear_no_data_error _ _ _ hres
      · exact forecastLinear_no_data_error _ _ _ hres
      · exact forecastCalorie_no_data_error _ _ _ hres
    · intro hlt
      exact absurd hlt h

/-! ### C3: linear-forecast confidence-interval widening -/

/-- The derived table of seven days of perfectly constant weight. -/
def dfC3 : List Row := metricsTable 2000 entriesConstant7

/-- Day indices of the linear trend series selected from `dfC3`. -/
def xsC3 : List ℚ := daysSinceStart (trendRowsCol dfC3).1

/-- Weight values of the linear trend series selected from `dfC3`. -/
def ysC3 : List ℚ := (trendRowsCol dfC3).2

/-- C3 counterexample: on a perfectly collinear (constant) 7-day series
the residual error is zero, so every confidence-interval width
(`upper − lower = 4 · std_error · √gFactor`) is zero; the width at
forecast day 30 does not exceed the width at day 1. -/
theorem c3_constant_counterexample :
    stdErrSqQ xsC3 ysC3 = 0 ∧
    ¬ (4 * Real.sqrt ((stdErrSqQ xsC3 ysC3 : ℚ) : ℝ) *
          Real.sqrt ((gFactorQ xsC3 (xsC3.getLast?.getD 0 + 1) : ℚ) : ℝ) <
        4 * Real.sqrt ((stdErrSqQ xsC3 ysC3 : ℚ) : ℝ) *
          Real.sqrt ((gFactorQ xsC3 (xsC3.getLast?.getD 0 + 30) : ℚ) : ℝ)) := by
  have h0 : stdErrSqQ xsC3 ysC3 = 0 := by with_unfolding_all decide
  refine ⟨h0, ?_⟩
  rw [h0]
  simp

/-- C3 amended: the confidence-interval width
`4 · std_error · √(gFactorQ)` at forecast day `d` is strictly increasing
in `d` provided the residual sum of squares of the fit is positive; on an
exactly collinear series (zero residuals) the width is identically zero
instead. -/
theorem c3_width_monotone_amended (xs ys : List ℚ)
    (hn : 7 ≤ xs.length)
    (hmean : meanQ xs ≤ xs.getLast?.getD 0)
    (hsxx : 0 < sxxQ xs)
    (hres : 0 < ssResQ xs ys)
    (i j : ℕ) (hi : 1 ≤ i) (hij : i < j) :
    4 * Real.sqrt ((stdErrSqQ xs ys : ℚ) : ℝ) *
        Real.sqrt ((gFactorQ xs (xs.getLast?.getD 0 + i) : ℚ) : ℝ) <
      4 * Real.sqrt ((stdErrSqQ xs ys : ℚ) : ℝ) *
        Real.sqrt ((gFactorQ xs (xs.getLast?.getD 0 + j) : ℚ) : ℝ) := by
  have hn2 : (0 : ℚ) < (xs.length : ℚ) - 2 := by
    have h7 : (7 : ℚ) ≤ (xs.length : ℚ) := by exact_mod_cast hn
    linarith
  have hnpos : (0 : ℚ) < (xs.length : ℚ) := by linarith
  have hse : 0 < stdErrSqQ xs ys := div_pos hres hn2
  have ha : 0 ≤ xs.getLast?.getD 0 - meanQ xs := sub_nonneg.mpr hmean
  have hiq : (0 : ℚ) ≤ (i : ℚ) := Nat.cast_nonneg i
  have hijq : (i : ℚ) < (j : ℚ) := by exact_mod_cast hij
  have hsq : (xs.getLast?.getD 0 + (i : ℚ) - meanQ xs) ^ 2 <
      (xs.getLast?.getD 0 + (j : ℚ) - meanQ xs) ^ 2 := by
    have h1 : 0 ≤ xs.getLast?.getD 0 + (i : ℚ) - meanQ xs := by linarith
    have h2 : xs.getLast?.getD 0 + (i : ℚ) - meanQ xs <
        xs.getLast?.getD 0 + (j : ℚ) - meanQ xs := by linarith
    exact sq_lt_sq' (by linarith) h2
  have hg : gFactorQ xs (xs.getLast?.getD 0 + i) < gFactorQ xs (xs.getLast?.getD 0 + j) := by
    unfold gFactorQ
    have hd := (div_lt_div_iff_of_pos_right hsxx).mpr hsq
    linarith
  have hg0 : (0 : ℚ) ≤ gFactorQ xs (xs.getLast?.getD 0 + i) := by
    unfold gFactorQ
    have hterm : 0 ≤ (xs.getLast?.getD 0 + (i : ℚ) - meanQ xs) ^ 2 / sxxQ xs :=
      div_nonneg (sq_nonneg _) hsxx.le
    have hinv : 0 ≤ 1 / (xs.length : ℚ) := by positivity
    linarith
  have hsqrt : Real.sqrt ((gFactorQ xs (xs.getLast?.getD 0 + i) : ℚ) : ℝ) <
      Real.sqrt ((gFactorQ xs (xs.getLast?.getD 0 + j) : ℚ) : ℝ) :=
    Real.sqrt_lt_sqrt (by exact_mod_cast hg0) (by exact_mod_cast hg)
  have hc : (0 : ℝ) < 4 * Real.sqrt ((stdErrSqQ xs ys : ℚ) : ℝ) := by
    have hser : (0 : ℝ) < ((stdErrSqQ xs ys : ℚ) : ℝ) := by exact_mod_cast hse
    have := Real.sqrt_pos.mpr hser
    linarith
  exact mul_lt_mul_of_pos_left hsqrt hc

/-- A noisy seven-point series for the C3 witness. -/
def xsNoisy : List ℚ := [0, 1, 2, 3, 4, 5, 6]

/-- Its weight values (one residual is necessarily non-zero). -/
def ysNoisy : List ℚ := [85, 85, 85, 85, 85, 85, 84]

/-- Witness for C3 on the noisy series: width at day 1 is below width at
day 30. -/
theorem c3_width_monotone_witness :
    (7 ≤ xsNoisy.length ∧ meanQ xsNoisy ≤ xsNoisy.getLast?.getD 0 ∧
      0 < sxxQ xsNoisy ∧ 0 < ssResQ xsNoisy ysNoisy) ∧
    4 * Real.sqrt ((stdErrSqQ xsNoisy ysNoisy : ℚ) : ℝ) *
        Real.sqrt ((gFactorQ xsNoisy (xsNoisy.getLast?.getD 0 + 1) : ℚ) : ℝ) <
      4 * Real.sqrt ((stdErrSqQ xsNoisy ysNoisy : ℚ) : ℝ) *
        Real.sqrt ((gFactorQ xsNoisy (xsNoisy.getLast?.getD 0 + 30) : ℚ) : ℝ) :=
  ⟨⟨by decide, by with_unfolding_all decide, by with_unfolding_all decide,
      by with_unfolding_all decide⟩,
    c3_width_monotone_amended xsNoisy ysNoisy (by decide)
      (by with_unfolding_all decide) (by with_unfolding_all decide)
      (by with_unfolding_all decide) 1 30 (by decide) (by decide)⟩

end DietApp
